import Mathlib

/-!
Verification of the streaming task-executor core of the currency-conversion
agent example (`src/examples/a2a_example/agent/agent_executor.py`).

The embedding models `CurrencyAgentExecutor.execute`, `_validate_request`
and `cancel`.  A reasoning increment arrives as a loosely-typed mapping
(`item['is_task_complete']`, `item['require_user_input']`, `item['content']`),
so an item is modelled with `Option` fields: a `none` field corresponds to a
missing dictionary key, whose lookup raises a `KeyError`.  The reasoning
stream may also raise an exception while being pulled; a stream is therefore
a list of elements that either yield an item or raise.  All exceptions inside
the `try` block are caught by the catch-all handler and re-raised as
`ServerError(InternalError)`.

Events enqueued on the `EventQueue` are modelled in emission order:
the freshly created `Task` object (`event_queue.enqueue_event(task)`),
status updates (`TaskUpdater.update_status`, where `TaskUpdater.complete()`
is `update_status(TaskState.completed, final=True)` with no message), and
artifact updates (`TaskUpdater.add_artifact`).
-/

namespace A2AExecutor

/-- Task lifecycle states used by the executor (subset of `a2a.types.TaskState`). -/
inductive TaskState where
  | submitted
  | working
  | input_required
  | completed
  | failed
  deriving DecidableEq, Repr

/-- One item produced by `self.agent.stream`, a loosely-typed mapping.
A `none` field models a missing dictionary key: looking it up raises. -/
structure Item where
  is_task_complete : Option Bool
  require_user_input : Option Bool
  content : Option String
  deriving DecidableEq, Repr

/-- One step of the reasoning stream: it either yields an item or raises an
exception while the next item is being pulled. -/
inductive StreamElem where
  | yield (item : Item)
  | raise
  deriving DecidableEq, Repr

/-- An event enqueued on the `EventQueue`, in emission order. -/
inductive Event where
  /-- the new `Task` enqueued by `event_queue.enqueue_event(task)` -/
  | newTask
  /-- `TaskUpdater.update_status(state, message, final=...)` -/
  | statusUpdate (state : TaskState) (message : Option String) (final : Bool)
  /-- `TaskUpdater.add_artifact(parts, name=...)` with text content -/
  | artifactUpdate (name : String) (text : String)
  deriving DecidableEq, Repr

/-- The error kinds the executor wraps in `ServerError`. -/
inductive AgentError where
  | invalidParams
  | internalError
  | unsupportedOperation
  deriving DecidableEq, Repr

/-- The `async for` loop body of `CurrencyAgentExecutor.execute`
(lines 81-113): for each yielded item the two flag keys are looked up
(raising on a missing key), then exactly one branch runs:
emit a `working` status and continue, emit a final `input_required`
status and break, or attach the `conversion_result` artifact, emit the
final `completed` status and break.  The returned flag records whether an
exception escaped the loop into the catch-all handler. -/
def streamLoop : List StreamElem → List Event × Bool
  | [] => ([], false)
  | StreamElem.raise :: _ => ([], true)
  | StreamElem.yield item :: rest =>
    match item.is_task_complete with
    | none => ([], true)
    | some is_task_complete =>
      match item.require_user_input with
      | none => ([], true)
      | some require_user_input =>
        if !is_task_complete && !require_user_input then
          match item.content with
          | none => ([], true)
          | some s =>
            let r := streamLoop rest
            (Event.statusUpdate TaskState.working (some s) false :: r.1, r.2)
        else if require_user_input then
          match item.content with
          | none => ([], true)
          | some s => ([Event.statusUpdate TaskState.input_required (some s) true], false)
        else
          match item.content with
          | none => ([], true)
          | some s =>
            ([Event.artifactUpdate "conversion_result" s,
              Event.statusUpdate TaskState.completed none true], false)

/-- `CurrencyAgentExecutor._validate_request` (line 119-120): always `False`. -/
def validate_request ( context : String) : Bool :=
  false

/-- The events enqueued before the loop: when the context carries no current
task, a new `Task` is created and enqueued (lines 73-75). -/
def initialEvents (hasCurrentTask : Bool) : List Event :=
  if hasCurrentTask then [] else [Event.newTask]

/-- `CurrencyAgentExecutor.execute` with the validation outcome made an
explicit parameter (the source computes it by `self._validate_request(context)`
on line 64).  Returns the list of enqueued events together with the error
wrapped in the raised `ServerError`, if any (`none` means a normal return). -/
def executeWith (validationError : Bool) (hasCurrentTask : Bool)
    (stream : List StreamElem) : List Event × Option AgentError :=
  if validationError then ([], some AgentError.invalidParams)
  else
    let r := streamLoop stream
    (initialEvents hasCurrentTask ++ r.1,
     if r.2 then some AgentError.internalError else none)

/-- `CurrencyAgentExecutor.execute` (lines 45-117). -/
def execute ( context : String) (hasCurrentTask : Bool)
    (stream : List StreamElem) : List Event × Option AgentError :=
  executeWith ( validate_request context) hasCurrentTask stream

/-- `CurrencyAgentExecutor.cancel` (lines 122-125): unconditionally raises
`ServerError(UnsupportedOperationError())`; the `Task | None` success payload
is never produced. -/
def cancel (taskId : String) : Except AgentError (Option Unit) :=
  Except.error AgentError.unsupportedOperation

/-- A well-formed Reasoning Increment of the spec data model: all three
fields are present. -/
structure Increment where
  content : String
  isComplete : Bool
  needsUserInput : Bool
  deriving DecidableEq, Repr

/-- The dictionary item carrying a well-formed increment. -/
def Increment.toItem (inc : Increment) : Item :=
  ⟨some inc.isComplete, some inc.needsUserInput, some inc.content⟩

/-- The stream element yielding a well-formed increment. -/
def Increment.yieldItem (inc : Increment) : StreamElem :=
  StreamElem.yield inc.toItem

/-- The `working` status update the loop emits for a non-terminal increment. -/
def workingEvent (inc : Increment) : Event :=
  Event.statusUpdate TaskState.working (some inc.content) false

/-- Recognises a status update carrying the `completed` state. -/
def isCompletedStatus : Event → Bool
  | Event.statusUpdate TaskState.completed _ _ => true
  | _ => false

/-- Recognises a status update carrying the `input_required` state. -/
def isInputRequiredStatus : Event → Bool
  | Event.statusUpdate TaskState.input_required _ _ => true
  | _ => false

/-- Recognises a status update carrying the `failed` state. -/
def isFailedStatus : Event → Bool
  | Event.statusUpdate TaskState.failed _ _ => true
  | _ => false

/-- Recognises an artifact update. -/
def isArtifactEvent : Event → Bool
  | Event.artifactUpdate _ _ => true
  | _ => false

/-- A named artifact payload of the spec data model. -/
structure Artifact where
  name : String
  content : String
  deriving DecidableEq, Repr

/-- Modelled from the spec: the Update Event shape of section 6,
`\x7bstate, message?, artifact?, final\x7d` (task and context identifiers are
constant per invocation and omitted). -/
structure UpdateEvent where
  state : TaskState
  message : Option String
  artifact : Option Artifact
  final : Bool
  deriving DecidableEq, Repr

/-- Modelled from the spec: the abstraction from the enqueued events to the
spec-level Update Event sequence.  The Task creation enqueue is not an Update
Event; a completion is represented in the source as an artifact attachment
immediately followed by the final `completed` status update, which the spec
folds into a single `Completed` event carrying the artifact. -/
def toUpdateEvents : List Event → List UpdateEvent
  | [] => []
  | Event.newTask :: rest => toUpdateEvents rest
  | Event.artifactUpdate n c :: Event.statusUpdate TaskState.completed none true :: rest =>
      UpdateEvent.mk TaskState.completed none (some (Artifact.mk n c)) true :: toUpdateEvents rest
  | Event.artifactUpdate _ _ :: rest => toUpdateEvents rest
  | Event.statusUpdate s m f :: rest => UpdateEvent.mk s m none f :: toUpdateEvents rest

/-! ### Helper lemmas -/

/-- Unfolding `execute` into the initial events, the loop events and the
translated error. -/
theorem execute_eq ( context : String) (hasCurrentTask : Bool)
    (stream : List StreamElem) :
    execute context hasCurrentTask stream =
      (initialEvents hasCurrentTask ++ (streamLoop stream).1,
       if (streamLoop stream).2 then some AgentError.internalError else none) := by
  simp [execute, executeWith, validate_request]

/-- A leading block of non-terminal well-formed increments contributes one
`working` status update each, and the loop continues on the remainder. -/
theorem streamLoop_nonterminal (pre : List Increment)
    (hpre : ∀ inc ∈ pre, inc.isComplete = false ∧ inc.needsUserInput = false)
    (rest : List StreamElem) :
    streamLoop (pre.map Increment.yieldItem ++ rest) =
      (pre.map workingEvent ++ (streamLoop rest).1, (streamLoop rest).2) := by
  induction pre with
  | nil => simp
  | cons inc pre ih =>
    obtain ⟨h1, h2⟩ := hpre inc (List.mem_cons_self inc pre)
    have ih2 := ih fun i hi => hpre i (List.mem_cons_of_mem inc hi)
    simp [Increment.yieldItem, Increment.toItem, streamLoop, h1, h2, ih2, workingEvent]

/-- An increment with `needsUserInput = true` makes the loop emit a single
final `input_required` status update and break, whatever `isComplete` is and
whatever follows in the stream. -/
theorem streamLoop_input_required (inc : Increment) (rest : List StreamElem)
    (hn : inc.needsUserInput = true) :
    streamLoop (inc.yieldItem :: rest) =
      ([Event.statusUpdate TaskState.input_required (some inc.content) true], false) := by
  cases hc : inc.isComplete <;>
    simp [Increment.yieldItem, Increment.toItem, streamLoop, hn, hc]

/-- An increment with `isComplete = true` and `needsUserInput = false` makes
the loop attach the `conversion_result` artifact, emit the final `completed`
status update and break. -/
theorem streamLoop_completed (inc : Increment) (rest : List StreamElem)
    (hc : inc.isComplete = true) (hn : inc.needsUserInput = false) :
    streamLoop (inc.yieldItem :: rest) =
      ([Event.artifactUpdate "conversion_result" inc.content,
        Event.statusUpdate TaskState.completed none true], false) := by
  simp [Increment.yieldItem, Increment.toItem, streamLoop, hc, hn]

/-- An item missing one of the two flag keys raises a `KeyError` before any
event for it is emitted, and the loop aborts exceptionally. -/
theorem streamLoop_missing_key (item : Item) (rest : List StreamElem)
    (hkey : item.is_task_complete = none ∨ item.require_user_input = none) :
    streamLoop (StreamElem.yield item :: rest) = ([], true) := by
  rcases item with ⟨c, r, s⟩
  rcases hkey with h | h
  · simp only at h
    simp [streamLoop, h]
  · simp only at h
    cases c <;> simp [streamLoop, h]

/-- The loop never emits a `failed` status update. -/
theorem streamLoop_no_failed (stream : List StreamElem) :
    (streamLoop stream).1.countP isFailedStatus = 0 := by
  induction stream with
  | nil => rfl
  | cons e rest ih =>
    cases e with
    | raise => rfl
    | yield item =>
      rcases item with ⟨c, r, s⟩
      cases c with
      | none => rfl
      | some c =>
        cases r with
        | none => rfl
        | some r =>
          cases c <;> cases r <;> cases s <;>
            simp [streamLoop, isFailedStatus, List.countP_cons, ih]

/-! ### Claim theorems -/

/-- Claim C1: for every sequence of well-formed reasoning increments ending in
exactly one increment with `isComplete = true` (by the data-model invariant of
spec section 3 its `needsUserInput` is false) and with no earlier terminal
increment, `execute` emits exactly one update event with state `completed`,
that event is the last event emitted for the invocation, and the call returns
normally. -/
theorem execute_completed_once_and_last ( context : String) (hasCurrentTask : Bool)
    (pre : List Increment) (last : Increment)
    (hpre : ∀ inc ∈ pre, inc.isComplete = false ∧ inc.needsUserInput = false)
    (hc : last.isComplete = true) (hn : last.needsUserInput = false) :
    (execute context hasCurrentTask ((pre ++ [last]).map Increment.yieldItem)).1.countP
        isCompletedStatus = 1 ∧
    (execute context hasCurrentTask ((pre ++ [last]).map Increment.yieldItem)).1.getLast? =
        some (Event.statusUpdate TaskState.completed none true) ∧
    (execute context hasCurrentTask ((pre ++ [last]).map Increment.yieldItem)).2 = none := by
  have hstream : streamLoop ((pre ++ [last]).map Increment.yieldItem) =
      (pre.map workingEvent ++
        [Event.artifactUpdate "conversion_result" last.content,
         Event.statusUpdate TaskState.completed none true], false) := by
    rw [List.map_append, streamLoop_nonterminal pre hpre]
    simp [streamLoop_completed last [] hc hn]
  rw [execute_eq, hstream]
  refine ⟨?_, ?_, by simp⟩
  · cases hasCurrentTask <;>
      simp [initialEvents, List.countP_cons, Function.comp, workingEvent, isCompletedStatus]
  · simp [List.getLast?_append]

/-- Witness for C1 at a concrete two-increment stream. -/
theorem execute_completed_once_and_last_witness :
    (execute "q" false (([Increment.mk "looking up" false false] ++
        [Increment.mk "done" true false]).map Increment.yieldItem)).1.countP
        isCompletedStatus = 1 ∧
    (execute "q" false (([Increment.mk "looking up" false false] ++
        [Increment.mk "done" true false]).map Increment.yieldItem)).1.getLast? =
        some (Event.statusUpdate TaskState.completed none true) ∧
    (execute "q" false (([Increment.mk "looking up" false false] ++
        [Increment.mk "done" true false]).map Increment.yieldItem)).2 = none :=
  execute_completed_once_and_last "q" false [Increment.mk "looking up" false false]
    (Increment.mk "done" true false) (by decide) rfl rfl

/-- Claim C2 counterexample: in the stream
`[\x7bcontent:"done", isComplete:true, needsUserInput:false\x7d,
\x7bcontent:"ask", isComplete:false, needsUserInput:true\x7d]` the first
increment with `needsUserInput = true` is at position 1, yet `execute` emits
no `input_required` event at all: the loop completes at position 0 and never
reaches position 1. -/
theorem execute_input_required_claim_cex :
    (execute "q" false [Increment.yieldItem (Increment.mk "done" true false),
        Increment.yieldItem (Increment.mk "ask" false true)]).1.countP
        isInputRequiredStatus = 0 ∧
    execute "q" false [Increment.yieldItem (Increment.mk "done" true false),
        Increment.yieldItem (Increment.mk "ask" false true)] =
      ([Event.newTask, Event.artifactUpdate "conversion_result" "done",
        Event.statusUpdate TaskState.completed none true], none) := by
  exact ⟨rfl, rfl⟩

/-- Claim C2 as amended: if the first increment with `needsUserInput = true`
is at position k and additionally no increment before position k is terminal
(all earlier increments have `isComplete = false`), then `execute` emits the
final `input_required` event for position k as its last event and emits
nothing for any later stream element: consumption stops at k. -/
theorem execute_input_required_stops ( context : String) (hasCurrentTask : Bool)
    (pre : List Increment) (inc : Increment) (rest : List StreamElem)
    (hpre : ∀ p ∈ pre, p.isComplete = false ∧ p.needsUserInput = false)
    (hn : inc.needsUserInput = true) :
    execute context hasCurrentTask
        (pre.map Increment.yieldItem ++ inc.yieldItem :: rest) =
      (initialEvents hasCurrentTask ++ pre.map workingEvent ++
        [Event.statusUpdate TaskState.input_required (some inc.content) true], none) := by
  rw [execute_eq]
  rw [streamLoop_nonterminal pre hpre, streamLoop_input_required inc rest hn]
  simp

/-- Witness for C2 as amended, with a raising tail that is never consumed. -/
theorem execute_input_required_stops_witness :
    execute "q" false
        ([Increment.mk "looking up" false false].map Increment.yieldItem ++
          (Increment.mk "ask" false true).yieldItem :: [StreamElem.raise]) =
      (initialEvents false ++ [Increment.mk "looking up" false false].map workingEvent ++
        [Event.statusUpdate TaskState.input_required (some "ask") true], none) :=
  execute_input_required_stops "q" false [Increment.mk "looking up" false false]
    (Increment.mk "ask" false true) [StreamElem.raise] (by decide) rfl

/-- Claim C3 counterexample: for the single increment
`\x7bcontent:"x", isComplete:true, needsUserInput:true\x7d` the emitter does
not pick the completed branch: it emits no `completed` event and no artifact,
but a final `input_required` event. -/
theorem execute_both_flags_claim_cex :
    (execute "q" false [Increment.yieldItem (Increment.mk "x" true true)]).1.countP
        isCompletedStatus = 0 ∧
    (execute "q" false [Increment.yieldItem (Increment.mk "x" true true)]).1.countP
        isArtifactEvent = 0 ∧
    execute "q" false [Increment.yieldItem (Increment.mk "x" true true)] =
      ([Event.newTask,
        Event.statusUpdate TaskState.input_required (some "x") true], none) := by
  exact ⟨rfl, rfl, rfl⟩

/-- Claim C3 as amended: for every increment with both `isComplete = true` and
`needsUserInput = true` that the loop consumes, the emitter silently picks the
input-required branch: it emits a final `input_required` event, attaches no
artifact, emits no `completed` event, and stops consuming. -/
theorem execute_both_flags_input_required ( context : String) (hasCurrentTask : Bool)
    (pre : List Increment) (inc : Increment) (rest : List StreamElem)
    (hpre : ∀ p ∈ pre, p.isComplete = false ∧ p.needsUserInput = false)
    (hc : inc.isComplete = true) (hn : inc.needsUserInput = true) :
    execute context hasCurrentTask
        (pre.map Increment.yieldItem ++ inc.yieldItem :: rest) =
      (initialEvents hasCurrentTask ++ pre.map workingEvent ++
        [Event.statusUpdate TaskState.input_required (some inc.content) true], none) := by
  rw [execute_eq]
  rw [streamLoop_nonterminal pre hpre, streamLoop_input_required inc rest hn]
  simp

/-- Witness for C3 as amended at a concrete both-flags increment. -/
theorem execute_both_flags_input_required_witness :
    execute "q" true
        (([] : List Increment).map Increment.yieldItem ++
          (Increment.mk "x" true true).yieldItem :: []) =
      (initialEvents true ++ ([] : List Increment).map workingEvent ++
        [Event.statusUpdate TaskState.input_required (some "x") true], none) :=
  execute_both_flags_input_required "q" true [] (Increment.mk "x" true true) []
    (by decide) rfl rfl

/-- Claim C4 counterexample: when the reasoning source raises immediately,
`execute` surfaces `InternalError`, but the task's last recorded state is not
`Failed`: no `failed` status update is ever emitted (here no status update at
all follows the task creation). -/
theorem execute_failed_state_claim_cex :
    execute "q" false [StreamElem.raise] =
      ([Event.newTask], some AgentError.internalError) ∧
    (execute "q" false [StreamElem.raise]).1.countP isFailedStatus = 0 := by
  exact ⟨rfl, rfl⟩

/-- Claim C4 as amended: whenever consuming the increment stream raises an
exception, `execute` surfaces exactly one `InternalError` to the caller (the
exception is never swallowed), but it does not record a `Failed` state: no
`failed` status update event is emitted, so the task is left in its
pre-exception state. -/
theorem execute_stream_exception_internal_error ( context : String)
    (hasCurrentTask : Bool) (stream : List StreamElem)
    (h : (streamLoop stream).2 = true) :
    (execute context hasCurrentTask stream).2 = some AgentError.internalError ∧
    (execute context hasCurrentTask stream).1.countP isFailedStatus = 0 := by
  rw [execute_eq]
  refine ⟨by simp [h], ?_⟩
  cases hasCurrentTask <;>
    simp [initialEvents, streamLoop_no_failed stream, isFailedStatus]

/-- Witness for C4 as amended at a stream that raises immediately. -/
theorem execute_stream_exception_internal_error_witness :
    (streamLoop [StreamElem.raise]).2 = true ∧
    ((execute "q" false [StreamElem.raise]).2 = some AgentError.internalError ∧
     (execute "q" false [StreamElem.raise]).1.countP isFailedStatus = 0) :=
  ⟨rfl, execute_stream_exception_internal_error "q" false [StreamElem.raise] rfl⟩

/-- Claim C5: for every cancellation request, whatever task id it carries,
`cancel` returns the `UnsupportedOperation` error — a definitive, classified
failure, never a no-op success and never an unclassified fault. -/
theorem cancel_always_unsupported (taskId : String) :
    cancel taskId = Except.error AgentError.unsupportedOperation := by
  rfl

/-- Claim C6: for the concrete two-increment input the enqueued events are
the new task, a `working` status update carrying "looking up rate", the
`conversion_result` artifact and the final `completed` status update; at the
spec's Update Event granularity (artifact attachment folded into the final
completion event) this is exactly
`[\x7bstate:Working, message:"looking up rate"\x7d,
\x7bstate:Completed, artifact:\x7bname:"conversion_result",
content:"1 USD = 0.92 EUR"\x7d, final:true\x7d]`. -/
theorem execute_currency_scenario :
    execute "how much is 1 USD in EUR" false
        [Increment.yieldItem (Increment.mk "looking up rate" false false),
         Increment.yieldItem (Increment.mk "1 USD = 0.92 EUR" true false)] =
      ([Event.newTask,
        Event.statusUpdate TaskState.working (some "looking up rate") false,
        Event.artifactUpdate "conversion_result" "1 USD = 0.92 EUR",
        Event.statusUpdate TaskState.completed none true], none) ∧
    toUpdateEvents (execute "how much is 1 USD in EUR" false
        [Increment.yieldItem (Increment.mk "looking up rate" false false),
         Increment.yieldItem (Increment.mk "1 USD = 0.92 EUR" true false)]).1 =
      [UpdateEvent.mk TaskState.working (some "looking up rate") none false,
       UpdateEvent.mk TaskState.completed none
         (some (Artifact.mk "conversion_result" "1 USD = 0.92 EUR")) true] := by
  exact ⟨rfl, rfl⟩

/-- Claim C7: the request validator always passes (`_validate_request`
returns `False` for every context), so `execute` never surfaces
`InvalidParams`: its outcome is always a normal return or `InternalError`. -/
theorem execute_never_invalid_params ( context : String) (hasCurrentTask : Bool)
    (stream : List StreamElem) :
    validate_request context = false ∧
    ((execute context hasCurrentTask stream).2 = none ∨
     (execute context hasCurrentTask stream).2 = some AgentError.internalError) := by
  refine ⟨rfl, ?_⟩
  rw [execute_eq]
  cases (streamLoop stream).2 <;> simp

/-- Claim C8: on an invocation whose validation fails, `execute` raises
`InvalidParams` with an empty event list: no task is created and nothing is
enqueued before the validation error (the validation outcome is the explicit
first parameter of `executeWith`, computed on line 64 of the source). -/
theorem executeWith_validation_failure_no_state (hasCurrentTask : Bool)
    (stream : List StreamElem) :
    executeWith true hasCurrentTask stream = ([], some AgentError.invalidParams) := by
  rfl

/-- Claim C9: on an empty reasoning stream `execute` returns normally with no
error; when no task exists the only enqueued event is the newly created task
itself, and no status or artifact update is ever emitted, so the task is
never moved to a terminal state. -/
theorem execute_empty_stream ( context : String) (hasCurrentTask : Bool) :
    (execute context hasCurrentTask []).2 = none ∧
    (execute context hasCurrentTask []).1 = initialEvents hasCurrentTask ∧
    (execute context false []).1 = [Event.newTask] := by
  refine ⟨?_, ?_, rfl⟩ <;> rw [execute_eq] <;> simp [streamLoop]

/-- Claim C10 counterexample: in the stream whose first increment completes
the task and whose second item lacks the key `is_task_complete`, `execute`
returns normally (`none`): no `InternalError` surfaces for the malformed
increment, because the loop broke at the first increment and never looked it
up. -/
theorem execute_missing_key_claim_cex :
    execute "q" false
        [Increment.yieldItem (Increment.mk "done" true false),
         StreamElem.yield (Item.mk none (some false) (some "x"))] =
      ([Event.newTask, Event.artifactUpdate "conversion_result" "done",
        Event.statusUpdate TaskState.completed none true], none) := by
  rfl

/-- Claim C10 as amended: for every item lacking the key `is_task_complete`
or the key `require_user_input` that the loop actually consumes (every
earlier increment is well-formed and non-terminal), `execute` emits no update
event for that item and surfaces the key lookup failure as a single
`InternalError` through the catch-all handler, never unclassified. -/
theorem execute_missing_key_internal_error ( context : String)
    (hasCurrentTask : Bool) (pre : List Increment) (item : Item)
    (rest : List StreamElem)
    (hpre : ∀ p ∈ pre, p.isComplete = false ∧ p.needsUserInput = false)
    (hkey : item.is_task_complete = none ∨ item.require_user_input = none) :
    execute context hasCurrentTask
        (pre.map Increment.yieldItem ++ StreamElem.yield item :: rest) =
      (initialEvents hasCurrentTask ++ pre.map workingEvent,
       some AgentError.internalError) := by
  rw [execute_eq]
  rw [streamLoop_nonterminal pre hpre, streamLoop_missing_key item rest hkey]
  simp

/-- Witness for C10 as amended: a first-position item with no keys at all. -/
theorem execute_missing_key_internal_error_witness :
    execute "q" false
        (([] : List Increment).map Increment.yieldItem ++
          StreamElem.yield (Item.mk none none none) :: []) =
      (initialEvents false ++ ([] : List Increment).map workingEvent,
       some AgentError.internalError) :=
  execute_missing_key_internal_error "q" false [] (Item.mk none none none) []
    (by decide) (Or.inl rfl)

end A2AExecutor
